import Mathlib

/-!
Verification of the proxy-stack supervision core against its sources.

Shallow embedding of the Python sources:
  * `src/lib/anti_detect.py`   — `TokenBucketRateLimiter`, `AntiDetectEngine`
  * `src/lib/health_checker.py` — `BackendHealth`, `HealthChecker`
  * `src/lib/utils.py`          — `stop_process_by_pid`
  * `src/lib/three_proxy_manager.py` — `ThreeProxyManager.stop_instance`
  * `src/proxy_stack.py`        — `ProxyStackOrchestrator.start` / `stop`

Python floats (monotonic clock readings, token counts, latencies) are
modelled as exact rationals; Python ints as `Nat`/`Int`; dictionaries as
association lists with in-place update; `random.choice` as selection by an
arbitrary index reduced modulo the list length, with the empty-list case
(an `IndexError` in Python) surfacing as `none`.
-/

/-! ## Rate limiter (src/lib/anti_detect.py, class TokenBucketRateLimiter) -/

/-- State of `TokenBucketRateLimiter`.  `tokens` and `last_time` are the
`_tokens` / `_last_time` fields assigned in `__init__`; as in the source,
`allow` below never reads or writes them.  `per_ip` is the `_per_ip`
dictionary mapping an ip key to `(tokens, last_time)`. -/
structure RateLimiterState where
  rate : ℚ
  burst : ℤ
  tokens : ℚ
  last_time : ℚ
  per_ip : List (String × ℚ × ℚ)
deriving DecidableEq

namespace TokenBucketRateLimiter

/-- `TokenBucketRateLimiter.__init__(rate, burst)` at monotonic time `now`. -/
def init (rate : ℚ) (burst : ℤ) (now : ℚ) : RateLimiterState :=
  ⟨rate, burst, (burst : ℚ), now, []⟩

/-- Python dict assignment `self._per_ip[ip] = v`: replace the binding if the
key is present, otherwise append it. -/
def upsertIp (m : List (String × ℚ × ℚ)) (ip : String) (v : ℚ × ℚ) :
    List (String × ℚ × ℚ) :=
  match m with
  | [] => [(ip, v)]
  | (k, w) :: rest => if k = ip then (ip, v) :: rest else (k, w) :: upsertIp rest ip v

/-- Association-list lookup, `ip in self._per_ip` / `self._per_ip[ip]`. -/
def lookupIp (m : List (String × ℚ × ℚ)) (ip : String) : Option (ℚ × ℚ) :=
  match m with
  | [] => none
  | (k, w) :: rest => if k = ip then some w else lookupIp rest ip

/-- `TokenBucketRateLimiter.allow(ip)` called at monotonic time `now`.
Mirrors the source line by line: the stored bucket is consulted only when
`ip` is truthy (non-empty) and present; refill is
`min(burst, tokens + elapsed * rate)`; the updated bucket is written back
only when `ip` is truthy, on both the allowed and the denied branch. -/
def allow (s : RateLimiterState) (now : ℚ) (ip : String) : Bool × RateLimiterState :=
  let stored := if ip ≠ "" then lookupIp s.per_ip ip else none
  let tl : ℚ × ℚ :=
    match stored with
    | some tl => tl
    | none => ((s.burst : ℚ), now)
  let elapsed := now - tl.2
  let tokens := min (s.burst : ℚ) (tl.1 + elapsed * s.rate)
  if 1 ≤ tokens then
    (true, if ip ≠ "" then { s with per_ip := upsertIp s.per_ip ip (tokens - 1, now) } else s)
  else
    (false, if ip ≠ "" then { s with per_ip := upsertIp s.per_ip ip (tokens, now) } else s)

end TokenBucketRateLimiter

/-! ## Rotation engine (src/lib/anti_detect.py, class AntiDetectEngine) -/

/-- `BUILTIN_USER_AGENTS` from src/lib/anti_detect.py. -/
def BUILTIN_USER_AGENTS : List String := [
  "Mozilla/5.0 (Windows NT 10.0; Win64; x64) AppleWebKit/537.36 (KHTML, like Gecko) Chrome/122.0.0.0 Safari/537.36",
  "Mozilla/5.0 (Windows NT 10.0; Win64; x64) AppleWebKit/537.36 (KHTML, like Gecko) Chrome/121.0.0.0 Safari/537.36",
  "Mozilla/5.0 (Windows NT 10.0; Win64; x64) AppleWebKit/537.36 (KHTML, like Gecko) Chrome/120.0.0.0 Safari/537.36",
  "Mozilla/5.0 (Macintosh; Intel Mac OS X 10_15_7) AppleWebKit/537.36 (KHTML, like Gecko) Chrome/122.0.0.0 Safari/537.36",
  "Mozilla/5.0 (Macintosh; Intel Mac OS X 10_15_7) AppleWebKit/537.36 (KHTML, like Gecko) Chrome/121.0.0.0 Safari/537.36",
  "Mozilla/5.0 (X11; Linux x86_64) AppleWebKit/537.36 (KHTML, like Gecko) Chrome/122.0.0.0 Safari/537.36",
  "Mozilla/5.0 (X11; Linux x86_64) AppleWebKit/537.36 (KHTML, like Gecko) Chrome/121.0.0.0 Safari/537.36",
  "Mozilla/5.0 (Windows NT 10.0; Win64; x64; rv:123.0) Gecko/20100101 Firefox/123.0",
  "Mozilla/5.0 (Windows NT 10.0; Win64; x64; rv:122.0) Gecko/20100101 Firefox/122.0",
  "Mozilla/5.0 (Macintosh; Intel Mac OS X 10.15; rv:123.0) Gecko/20100101 Firefox/123.0",
  "Mozilla/5.0 (X11; Linux x86_64; rv:123.0) Gecko/20100101 Firefox/123.0",
  "Mozilla/5.0 (Macintosh; Intel Mac OS X 10_15_7) AppleWebKit/605.1.15 (KHTML, like Gecko) Version/17.3 Safari/605.1.15",
  "Mozilla/5.0 (Macintosh; Intel Mac OS X 10_15_7) AppleWebKit/605.1.15 (KHTML, like Gecko) Version/17.2 Safari/605.1.15",
  "Mozilla/5.0 (Windows NT 10.0; Win64; x64) AppleWebKit/537.36 (KHTML, like Gecko) Chrome/122.0.0.0 Safari/537.36 Edg/122.0.0.0",
  "Mozilla/5.0 (Windows NT 10.0; Win64; x64) AppleWebKit/537.36 (KHTML, like Gecko) Chrome/121.0.0.0 Safari/537.36 Edg/121.0.0.0",
  "Mozilla/5.0 (Linux; Android 14; Pixel 8 Pro) AppleWebKit/537.36 (KHTML, like Gecko) Chrome/122.0.0.0 Mobile Safari/537.36",
  "Mozilla/5.0 (Linux; Android 14; SM-S928B) AppleWebKit/537.36 (KHTML, like Gecko) Chrome/122.0.0.0 Mobile Safari/537.36",
  "Mozilla/5.0 (iPhone; CPU iPhone OS 17_3_1 like Mac OS X) AppleWebKit/605.1.15 (KHTML, like Gecko) Version/17.3 Mobile/15E148 Safari/604.1",
  "Mozilla/5.0 (iPhone; CPU iPhone OS 17_2_1 like Mac OS X) AppleWebKit/605.1.15 (KHTML, like Gecko) Version/17.2 Mobile/15E148 Safari/604.1"]

/-- Python `str.strip()`: remove leading and trailing whitespace. -/
def pyStrip (s : String) : String :=
  String.mk ((s.data.dropWhile Char.isWhitespace).reverse.dropWhile Char.isWhitespace).reverse

/-- Python `str.startswith(c)` for a one-character argument: the first
character of the raw string equals `c`. -/
def pyStartsWith (s : String) (c : Char) : Bool :=
  match s.data with
  | [] => false
  | d :: _ => d == c

/-- The comment character of the pool file. -/
def hashChar : Char := Char.ofNat 35

namespace AntiDetectEngine

/-- `AntiDetectEngine._load_user_agents`: the pool file is modelled as
`some lines` when present and readable (each list entry one line of the
file, without its trailing newline) and `none` when absent or unreadable,
in which case the built-in pool is used.  A kept line is
`line.strip()`; a line is kept iff `line.strip()` is truthy (non-empty)
and the raw line does not start with the character # . -/
def load_user_agents (pool_file : Option (List String)) : List String :=
  match pool_file with
  | some lines =>
      lines.filterMap (fun line =>
        if pyStrip line ≠ "" && !(pyStartsWith line hashChar) then
          some (pyStrip line)
        else none)
  | none => BUILTIN_USER_AGENTS

/-- The tail of `_load_user_agents`: `self._current_ua = random.choice(self._ua_pool)`
when the pool is non-empty, with `choice` the arbitrary random index; the
field keeps its initial value (the empty string) on an empty pool. -/
def init_current (pool : List String) (choice : Nat) : String :=
  if h : 0 < pool.length then pool.get ⟨choice % pool.length, Nat.mod_lt _ h⟩ else ""

/-- `AntiDetectEngine.rotate_user_agent`.  With more than one pool entry the
source filters the current value out and calls `random.choice` on the
remainder; on an empty remainder (all entries equal to `cur`) that raises
`IndexError`, modelled as `none`.  With exactly one entry the first entry is
returned; with an empty pool `_current_ua` is returned unchanged. -/
def rotate_user_agent (pool : List String) (cur : String) (choice : Nat) : Option String :=
  if 1 < pool.length then
    let candidates := pool.filter (fun ua => ua ≠ cur)
    if h : 0 < candidates.length then
      some (candidates.get ⟨choice % candidates.length, Nat.mod_lt _ h⟩)
    else none
  else if h0 : 0 < pool.length then
    some (pool.get ⟨0, h0⟩)
  else some cur

end AntiDetectEngine

/-! ## Health checker (src/lib/health_checker.py) -/

/-- The `BackendHealth` dataclass. -/
structure BackendHealth where
  name : String
  host : String
  http_port : Nat
  socks_port : Nat
  http_alive : Bool
  socks_alive : Bool
  http_latency_ms : ℚ
  socks_latency_ms : ℚ
  consecutive_failures : Nat
  last_check : ℚ
  last_success : ℚ
deriving DecidableEq

/-- `BackendHealth.is_healthy`: all tracked ports alive on the same check. -/
def BackendHealth.is_healthy (b : BackendHealth) : Bool :=
  b.http_alive && b.socks_alive

/-- A freshly registered backend, with the dataclass defaults:
both liveness flags false, zero latencies, zero failures, zero timestamps. -/
def mkBackendHealth (name host : String) (http_port socks_port : Nat) : BackendHealth :=
  ⟨name, host, http_port, socks_port, false, false, 0, 0, 0, 0, 0⟩

/-- Outcome of the two `_tcp_check` probes of one `_check_backend` call,
together with the `time.monotonic()` reading `now` taken at its start. -/
structure CheckResult where
  http_alive : Bool
  socks_alive : Bool
  http_latency : ℚ
  socks_latency : ℚ
  now : ℚ
deriving DecidableEq

namespace HealthChecker

/-- `HealthChecker._check_backend` applied to one backend record.  Returns
the updated record and whether `_fire_alert` was invoked (the source fires
it exactly when the incremented counter equals 3). -/
def check_backend (b : BackendHealth) (r : CheckResult) : BackendHealth × Bool :=
  let b1 := { b with
    http_alive := r.http_alive
    socks_alive := r.socks_alive
    http_latency_ms := r.http_latency
    socks_latency_ms := r.socks_latency
    last_check := r.now }
  if b1.is_healthy then
    ({ b1 with consecutive_failures := 0, last_success := r.now }, false)
  else
    let b2 := { b1 with consecutive_failures := b1.consecutive_failures + 1 }
    (b2, b2.consecutive_failures == 3)

/-- A sequence of checks of one backend: final record and the number of
alert-callback invocations along the way. -/
def run_checks (b : BackendHealth) : List CheckResult → BackendHealth × Nat
  | [] => (b, 0)
  | r :: rs =>
    let step := check_backend b r
    let rest := run_checks step.1 rs
    (rest.1, (if step.2 then 1 else 0) + rest.2)

/-- The aggregate summary returned by `get_health_summary` (the
per-backend detail map of the source echoes the stored record fields and is
not part of any claim, so it is not replicated here). -/
structure HealthSummary where
  status : String
  healthy_backends : Nat
  total_backends : Nat
deriving DecidableEq

/-- `HealthChecker.get_health_summary`, with `min_healthy` the configured
`monitoring.alerts.thresholds.min_healthy_backends`.  The source first sets
the overall status from the threshold comparison, then overrides it with
the string down when the healthy count is zero. -/
def get_health_summary (backends : List BackendHealth) (min_healthy : Nat) : HealthSummary :=
  let healthy_count := (backends.filter (fun b => b.is_healthy)).length
  let total := backends.length
  let overall := if min_healthy ≤ healthy_count then "healthy" else "degraded"
  let overall := if healthy_count = 0 then "down" else overall
  ⟨overall, healthy_count, total⟩

/-- One entry of the list handed to `register_backends`. -/
structure BackendSpec where
  name : String
  host : String
  http_port : Nat
  socks_port : Nat

/-- Python dict assignment `self._backends[name] = BackendHealth(...)`. -/
def upsertBackend (m : List BackendHealth) (b : BackendHealth) : List BackendHealth :=
  match m with
  | [] => [b]
  | x :: rest => if x.name = b.name then b :: rest else x :: upsertBackend rest b

/-- `HealthChecker.register_backends`: inserts a fresh default-initialised
`BackendHealth` record for every entry into the existing map. -/
def register_backends (m : List BackendHealth) (specs : List BackendSpec) : List BackendHealth :=
  specs.foldl
    (fun acc s => upsertBackend acc (mkBackendHealth s.name s.host s.http_port s.socks_port)) m

end HealthChecker

/-! ## Process lifecycle (src/lib/utils.py, src/lib/three_proxy_manager.py) -/

/-- Signals sent by `stop_process_by_pid`: `Sig.term` is `os.kill(pid, 15)`,
`Sig.kill` is `os.kill(pid, 9)`. -/
inductive Sig where
  | term
  | kill
deriving DecidableEq

/-- The environment of one `stop_process_by_pid` call.  `alive k` is the
result of the k-th `is_process_alive` probe of this call (the probes are
issued in order: one before SIGTERM, one per 100 ms poll iteration, one
after SIGKILL); `termRaises` is whether `os.kill(pid, 15)` raises
`OSError`. -/
structure ProcWorld where
  alive : Nat → Bool
  termRaises : Bool

/-- The polling loop of `stop_process_by_pid`: `n` remaining iterations,
`k` the index of the next liveness probe; `true` means the process was seen
dead and the function returns early. -/
def pollLoop (w : ProcWorld) : Nat → Nat → Bool
  | 0, _ => false
  | n + 1, k => if !(w.alive k) then true else pollLoop w n (k + 1)

/-- `stop_process_by_pid(pid, description, timeout)`: returns the boolean
result and the list of signals sent.  Mirrors the source: immediate success
with no signal if the first probe reports the process dead; SIGTERM (early
success if it raises `OSError`); `timeout * 10` polls at 100 ms; then
SIGKILL and a final liveness probe deciding the result. -/
def stop_process_by_pid (w : ProcWorld) (timeout : Nat) : Bool × List Sig :=
  if !(w.alive 0) then (true, [])
  else if w.termRaises then (true, [Sig.term])
  else if pollLoop w (timeout * 10) 1 then (true, [Sig.term])
  else (!(w.alive (timeout * 10 + 1)), [Sig.term, Sig.kill])

/-- `ThreeProxyManager.stop_instance`: reads the instance PID file
(`none` = absent/unparseable); the guard `if pid:` makes a recorded PID of 0
falsy, so it is treated like an absent one. -/
def stop_instance (pidFile : Option Nat) (w : ProcWorld) (timeout : Nat) : Bool × List Sig :=
  match pidFile with
  | some pid => if pid ≠ 0 then stop_process_by_pid w timeout else (true, [])
  | none => (true, [])

/-! ## Orchestrator (src/proxy_stack.py, class ProxyStackOrchestrator) -/

/-- Observable steps of `ProxyStackOrchestrator.start` / `stop`, in the
order the source performs them.  `startWorkers ok` records how many of the
3proxy instances came up in `ThreeProxyManager.start_all`; the stop events
are the component stops issued by `ProxyStackOrchestrator.stop` (monitoring
is stopped only when `self.monitoring` was created). -/
inductive StackEvent where
  | genConfigs
  | validateCfg
  | startWorkers (ok : Nat)
  | startLB
  | startMonitoring
  | startRotationEngine
  | startHealth
  | stopMonitoring
  | stopHealth
  | stopRotationEngine
  | stopLB
  | stopWorkers
  | writePid
  | removePid
deriving DecidableEq

/-- Which components of the stack are up, plus the `_running` flag and the
orchestrator PID file. -/
structure StackState where
  workers : Nat
  lb : Bool
  monitoring : Bool
  rotationEngine : Bool
  health : Bool
  running : Bool
  pidFile : Bool
deriving DecidableEq

/-- The state of a freshly constructed orchestrator. -/
def initialStackState : StackState := ⟨0, false, false, false, false, false, false⟩

/-- Outcomes of the externally visible steps a `start()` call depends on:
whether a live orchestrator PID is already recorded, whether validation
passes, how many workers `start_all` brings up (out of `instance_count`),
and whether the HAProxy start succeeds; plus the two config switches that
decide whether monitoring and the rotation engine are launched. -/
structure StartEnv where
  alreadyRunning : Bool
  validateOk : Bool
  instance_count : Nat
  workersStarted : Nat
  lbOk : Bool
  monitoringEnabled : Bool
  rotationEnabled : Bool

namespace ProxyStackOrchestrator

/-- The event sequence of `ProxyStackOrchestrator.stop`: monitoring (only
if it was created), health checker, anti-detect engine, HAProxy, all 3proxy
instances, then removal of the orchestrator PID file.  Every step is always
attempted. -/
def stopEvents (monitoringStarted : Bool) : List StackEvent :=
  (if monitoringStarted then [StackEvent.stopMonitoring] else []) ++
  [StackEvent.stopHealth, StackEvent.stopRotationEngine, StackEvent.stopLB,
   StackEvent.stopWorkers, StackEvent.removePid]

/-- The stack state after `ProxyStackOrchestrator.stop`: every component
stopped, `_running` false, PID file removed. -/
def stoppedState : StackState := ⟨0, false, false, false, false, false, false⟩

/-- `ProxyStackOrchestrator.start` on a fresh orchestrator: exit code, the
event trace, and the final stack state.  Mirrors the source: refuse when
already running; generate configs; validate (failure returns 1 with nothing
started and no rollback); start workers (`start_all` false means zero came
up, and triggers `self.stop()` then exit 1); start HAProxy (failure likewise
triggers `self.stop()` then exit 1); then monitoring / rotation engine per
config, health-checker registration and start, `_running = True` and the
PID file write. -/
def start (env : StartEnv) : Int × List StackEvent × StackState :=
  if env.alreadyRunning then (1, [], initialStackState)
  else
    let ev0 := [StackEvent.genConfigs, StackEvent.validateCfg]
    if !env.validateOk then (1, ev0, initialStackState)
    else
      let ev1 := ev0 ++ [StackEvent.startWorkers env.workersStarted]
      if env.workersStarted = 0 then
        (1, ev1 ++ stopEvents false, stoppedState)
      else
        let ev2 := ev1 ++ [StackEvent.startLB]
        if !env.lbOk then
          (1, ev2 ++ stopEvents false, stoppedState)
        else
          let ev3 := ev2 ++ (if env.monitoringEnabled then [StackEvent.startMonitoring] else [])
          let ev4 := ev3 ++ (if env.rotationEnabled then [StackEvent.startRotationEngine] else [])
          let ev5 := ev4 ++ [StackEvent.startHealth, StackEvent.writePid]
          (0, ev5,
            ⟨env.workersStarted, true, env.monitoringEnabled, env.rotationEnabled,
             true, true, true⟩)

/-- A stack state with every component stopped and no recorded instance. -/
def allStopped (s : StackState) : Prop :=
  s.workers = 0 ∧ s.lb = false ∧ s.monitoring = false ∧ s.rotationEngine = false ∧
  s.health = false ∧ s.running = false ∧ s.pidFile = false

instance (s : StackState) : Decidable (allStopped s) := by
  unfold allStopped
  infer_instance

end ProxyStackOrchestrator

/-! ## C1 — token bucket bound for the global key -/

namespace TokenBucketRateLimiter

/-- C1: the claim says that for every key, including the fixed global
(empty) key, the number of `allow()` calls returning true within any
window of length T is at most `ceil(burst + rate * T)`, with the bucket
looked up or lazily created and the updated count and timestamp persisted
even on a denied call.  The code violates this for the global key: both
the bucket lookup and the write-back are guarded by the truthiness of
`ip`, so `allow("")` re-creates a full bucket on every call and persists
nothing.  Evaluated here with `rate = 1, burst = 1`: two calls at the same
instant (window length 0, claimed bound `ceil(1) = 1`) both return true
and leave the state unchanged; and with `burst = 0` a denied call persists
nothing either. -/
theorem allow_global_key_unlimited :
    (allow (init 1 1 0) 0 "").1 = true ∧
    (allow (init 1 1 0) 0 "").2 = init 1 1 0 ∧
    (allow ((allow (init 1 1 0) 0 "").2) 0 "").1 = true ∧
    (allow (init 1 0 0) 0 "").1 = false ∧
    (allow (init 1 0 0) 0 "").2 = init 1 0 0 := by
  refine ⟨?_, ?_, ?_, ?_, ?_⟩ <;>
    simp [allow, init, lookupIp] <;> norm_num

end TokenBucketRateLimiter

/-! ## C2 — rotation distinctness -/

namespace AntiDetectEngine

/-- C2 counterexample: a pool of size 2 whose entries are duplicates.  The
current value selected at load time is that entry; `rotate_user_agent`
filters the pool down to the empty list and `random.choice([])` raises
`IndexError` (`none`), so rotation does not return a pool element
different from the current value as the claim states. -/
theorem rotate_duplicate_pool_fails :
    2 ≤ (["a", "a"] : List String).length ∧
    init_current ["a", "a"] 0 = "a" ∧
    rotate_user_agent ["a", "a"] "a" 0 = none := by decide

/-- C2 (amended): for every pool of size ≥ 2 containing at least one entry
different from the current value, `rotate_user_agent` returns (for every
random choice) a value that differs from the current value and is an
element of the pool. -/
theorem rotate_distinct (pool : List String) (cur : String) (choice : Nat)
    (hlen : 2 ≤ pool.length) (hex : ∃ ua ∈ pool, ua ≠ cur) :
    ∃ r, rotate_user_agent pool cur choice = some r ∧ r ≠ cur ∧ r ∈ pool := by
  unfold rotate_user_agent
  have h1 : 1 < pool.length := hlen
  rw [if_pos h1]
  obtain ⟨ua, hm, hne⟩ := hex
  have hmem : ua ∈ pool.filter (fun x => x ≠ cur) := by
    simp [List.mem_filter, hm, hne]
  have hpos : 0 < (pool.filter (fun x => x ≠ cur)).length :=
    List.length_pos.mpr (List.ne_nil_of_mem hmem)
  rw [dif_pos hpos]
  have hget : (pool.filter (fun x => x ≠ cur)).get
      ⟨choice % (pool.filter (fun x => x ≠ cur)).length, Nat.mod_lt _ hpos⟩ ∈
      pool.filter (fun x => x ≠ cur) := List.get_mem _ _ _
  have hsplit := List.mem_filter.mp hget
  refine ⟨_, rfl, ?_, hsplit.1⟩
  simpa using hsplit.2

/-- C2 witness: the amended rotation claim evaluated on the two-element
pool `["a", "b"]` with current value `"a"`. -/
theorem rotate_distinct_witness :
    2 ≤ (["a", "b"] : List String).length ∧
    ∃ r, rotate_user_agent ["a", "b"] "a" 0 = some r ∧ r ≠ "a" ∧ r ∈ ["a", "b"] :=
  ⟨by decide, rotate_distinct ["a", "b"] "a" 0 (by decide) ⟨"b", by decide, by decide⟩⟩

/-! ## C9 — pool file loading -/

/-- C9 counterexample: a comment-only line preceded by whitespace.  Its
stripped form starts with the comment character, yet the loader keeps it
(stripped) in the pool, because the source tests `line.startswith("#")` on
the raw, unstripped line. -/
theorem indented_comment_line_kept :
    pyStartsWith (pyStrip " # retired agents") hashChar = true ∧
    load_user_agents (some [" # retired agents"]) = ["# retired agents"] := by decide

/-- C9 (amended): when the pool file is present and readable, every
empty/whitespace-only line and every line whose first character is the
comment character is excluded; every other line appears stripped in the
pool; a comment line preceded by whitespace is therefore kept (stripped),
not excluded.  When the file is absent or unreadable the built-in pool is
used. -/
theorem load_user_agents_filtering (lines : List String) :
    (∀ s ∈ load_user_agents (some lines),
      s ≠ "" ∧ ∃ l ∈ lines, pyStartsWith l hashChar = false ∧ s = pyStrip l) ∧
    (∀ l ∈ lines, pyStrip l ≠ "" → pyStartsWith l hashChar = false →
      pyStrip l ∈ load_user_agents (some lines)) ∧
    load_user_agents none = BUILTIN_USER_AGENTS := by
  refine ⟨?_, ?_, rfl⟩
  · intro s hs
    simp only [load_user_agents, List.mem_filterMap] at hs
    obtain ⟨l, hl, hf⟩ := hs
    by_cases hc : pyStrip l ≠ "" && !(pyStartsWith l hashChar)
    · rw [if_pos hc] at hf
      have hc2 : ¬(pyStrip l = "") ∧ pyStartsWith l hashChar = false := by
        simpa using hc
      have hs2 : s = pyStrip l := (Option.some.injEq _ _ ▸ hf).symm
      refine ⟨?_, l, hl, hc2.2, hs2⟩
      rw [hs2]
      exact hc2.1
    · rw [if_neg hc] at hf
      exact absurd hf (by simp)
  · intro l hl h1 h2
    simp only [load_user_agents, List.mem_filterMap]
    refine ⟨l, hl, ?_⟩
    rw [if_pos]
    simp [h1, h2]

/-- C9 witness: a pool file with a non-comment line, an empty line and a
first-column comment keeps the non-comment line (stripped). -/
theorem load_user_agents_filtering_witness :
    pyStrip "agent one" ∈ load_user_agents (some ["agent one", "", "# c"]) :=
  (load_user_agents_filtering ["agent one", "", "# c"]).2.1 "agent one"
    (by simp) (by decide) (by decide)

end AntiDetectEngine

/-! ## C8, C3, C4, C10 — health checker -/

namespace HealthChecker

/-- Helper: `_check_backend` on a check with at least one dead port
increments the failure counter and reports an alert exactly when the new
counter equals 3. -/
theorem check_backend_fail (b : BackendHealth) (r : CheckResult)
    (h : r.http_alive = false ∨ r.socks_alive = false) :
    check_backend b r =
      ({ b with
          http_alive := r.http_alive
          socks_alive := r.socks_alive
          http_latency_ms := r.http_latency
          socks_latency_ms := r.socks_latency
          last_check := r.now
          consecutive_failures := b.consecutive_failures + 1 },
        b.consecutive_failures + 1 == 3) := by
  rcases h with h | h <;>
    simp [check_backend, BackendHealth.is_healthy, h]

/-- C8: on a check where all tracked ports are alive, `consecutive_failures`
resets to 0 and the last-success timestamp is updated to the check time; on
a check where at least one tracked port is not alive, `consecutive_failures`
increments by exactly 1. -/
theorem consecutive_failures_step (b : BackendHealth) (r : CheckResult) :
    ((r.http_alive = true ∧ r.socks_alive = true) →
      (check_backend b r).1.consecutive_failures = 0 ∧
      (check_backend b r).1.last_success = r.now) ∧
    ((r.http_alive = false ∨ r.socks_alive = false) →
      (check_backend b r).1.consecutive_failures = b.consecutive_failures + 1) := by
  constructor
  · rintro ⟨h1, h2⟩
    simp [check_backend, BackendHealth.is_healthy, h1, h2]
  · intro h
    rw [check_backend_fail b r h]

/-- C8 witness: both branches evaluated on a concrete backend record with 5
prior failures, once with both ports alive and once with the HTTP port
dead. -/
theorem consecutive_failures_step_witness :
    ((check_backend (mkBackendHealth "b0" "127.0.0.1" 13128 11080)
        ⟨true, true, 1, 1, 5⟩).1.consecutive_failures = 0 ∧
      (check_backend (mkBackendHealth "b0" "127.0.0.1" 13128 11080)
        ⟨true, true, 1, 1, 5⟩).1.last_success = (5 : ℚ)) ∧
    (check_backend (mkBackendHealth "b0" "127.0.0.1" 13128 11080)
        ⟨false, true, 1, 1, 5⟩).1.consecutive_failures =
      (mkBackendHealth "b0" "127.0.0.1" 13128 11080).consecutive_failures + 1 :=
  ⟨(consecutive_failures_step _ _).1 ⟨rfl, rfl⟩,
   (consecutive_failures_step _ _).2 (Or.inl rfl)⟩

/-- Helper: alert count of an uninterrupted run of failing checks, from an
arbitrary starting counter: exactly one alert is reported iff the counter
passes through the value 3 during the run. -/
theorem run_checks_fail_count (rs : List CheckResult) :
    ∀ b : BackendHealth, (∀ r ∈ rs, r.http_alive = false ∨ r.socks_alive = false) →
      (run_checks b rs).2 =
        if b.consecutive_failures < 3 ∧ 3 ≤ b.consecutive_failures + rs.length then 1 else 0 := by
  induction rs with
  | nil =>
    intro b _
    simp only [run_checks, List.length_nil]
    split_ifs <;> omega
  | cons r rs ih =>
    intro b hfail
    have hr := hfail r (List.mem_cons_self r rs)
    have hrest : ∀ x ∈ rs, x.http_alive = false ∨ x.socks_alive = false :=
      fun x hx => hfail x (List.mem_cons_of_mem r hx)
    simp only [run_checks, check_backend_fail b r hr, ih _ hrest, List.length_cons]
    by_cases h3 : b.consecutive_failures + 1 = 3 <;>
      simp [h3] <;> split_ifs <;> omega

/-- C3: during a degradation run — an uninterrupted sequence of failing
checks starting from a zeroed failure counter (the counter is zeroed by
registration and by any healthy check, see C8) — the alert callback fires
exactly once iff the run is at least 3 checks long: zero alerts in the
first two checks, exactly one by check 3, and none after. -/
theorem alert_once_per_degradation_run (b : BackendHealth) (rs : List CheckResult)
    (hstart : b.consecutive_failures = 0)
    (hfail : ∀ r ∈ rs, r.http_alive = false ∨ r.socks_alive = false) :
    (run_checks b rs).2 = (if 3 ≤ rs.length then 1 else 0) ∧
    (run_checks b (rs.take 2)).2 = 0 ∧
    (3 ≤ rs.length → (run_checks b (rs.take 3)).2 = 1) := by
  have htake2 : ∀ x ∈ rs.take 2, x.http_alive = false ∨ x.socks_alive = false :=
    fun x hx => hfail x (List.take_subset 2 rs hx)
  have htake3 : ∀ x ∈ rs.take 3, x.http_alive = false ∨ x.socks_alive = false :=
    fun x hx => hfail x (List.take_subset 3 rs hx)
  refine ⟨?_, ?_, ?_⟩
  · rw [run_checks_fail_count rs b hfail, hstart]
    split_ifs <;> omega
  · rw [run_checks_fail_count _ b htake2, hstart]
    have : (rs.take 2).length ≤ 2 := List.length_take_le 2 rs
    split_ifs <;> omega
  · intro h3
    rw [run_checks_fail_count _ b htake3, hstart]
    have : (rs.take 3).length = 3 := by
      simp [List.length_take]
      omega
    split_ifs <;> omega

/-- A backend as registered for monitoring in `ProxyStackOrchestrator.start`. -/
def exampleBackend : BackendHealth := mkBackendHealth "3proxy_0" "127.0.0.1" 13128 11080

/-- A check on which both probes failed. -/
def failingCheck : CheckResult := ⟨false, false, 0, 0, 0⟩

/-- C3 witness: a backend failing 5 consecutive checks produces exactly one
alert call, none within the first 2 checks and one by check 3. -/
theorem alert_once_per_degradation_run_witness :
    (run_checks exampleBackend (List.replicate 5 failingCheck)).2 =
      (if 3 ≤ (List.replicate 5 failingCheck).length then 1 else 0) ∧
    (run_checks exampleBackend ((List.replicate 5 failingCheck).take 2)).2 = 0 ∧
    (3 ≤ (List.replicate 5 failingCheck).length →
      (run_checks exampleBackend ((List.replicate 5 failingCheck).take 3)).2 = 1) :=
  alert_once_per_degradation_run exampleBackend (List.replicate 5 failingCheck) rfl
    (fun r hr => by
      rw [List.eq_of_mem_replicate hr]
      exact Or.inl rfl)

/-- C4: for every backend map and every configured minimum-healthy
threshold, the summary status is the string down exactly when the healthy
count is zero, and on a non-zero count it is the string healthy iff the
count reaches the threshold and the string degraded iff the count is below
it (the source computes the threshold comparison first and then overrides
the result with the down status on a zero count, which is also the case
the claim assigns to zero). -/
theorem health_summary_thresholds (backends : List BackendHealth) (min_healthy : Nat) :
    ((get_health_summary backends min_healthy).healthy_backends = 0 →
      (get_health_summary backends min_healthy).status = "down") ∧
    (0 < (get_health_summary backends min_healthy).healthy_backends →
      ((get_health_summary backends min_healthy).status = "healthy" ↔
        min_healthy ≤ (get_health_summary backends min_healthy).healthy_backends) ∧
      ((get_health_summary backends min_healthy).status = "degraded" ↔
        (get_health_summary backends min_healthy).healthy_backends < min_healthy)) ∧
    ((get_health_summary backends min_healthy).status = "down" ↔
      (get_health_summary backends min_healthy).healthy_backends = 0) := by
  unfold get_health_summary
  by_cases h0 : (backends.filter (fun b => b.is_healthy)).length = 0
  · simp only [h0, if_pos rfl]
    refine ⟨fun _ => rfl, ?_, ?_⟩ <;> simp
  · by_cases hge : min_healthy ≤ (backends.filter (fun b => b.is_healthy)).length
    · simp only [if_neg h0, if_pos hge]
      refine ⟨fun h => absurd h h0, fun _ => ?_, ?_⟩ <;> simp [hge, h0]
    · simp only [if_neg h0, if_neg hge]
      refine ⟨fun h => absurd h h0, fun _ => ?_, ?_⟩ <;> simp [hge, h0] <;> omega

/-- A backend whose last check saw both ports alive. -/
def exampleHealthyBackend : BackendHealth :=
  { mkBackendHealth "3proxy_1" "127.0.0.1" 13129 11081 with
      http_alive := true, socks_alive := true }

/-- Three backends of which two are healthy. -/
def exampleBackends : List BackendHealth :=
  [exampleHealthyBackend, exampleHealthyBackend, exampleBackend]

/-- C4 witness: the threshold claim evaluated with `min_healthy = 2` on 3
backends of which 2 are healthy (so the status is the string healthy, as
in the example of the claim), discharging the non-zero-count hypothesis. -/
theorem health_summary_thresholds_witness :
    0 < (get_health_summary exampleBackends 2).healthy_backends ∧
    (((get_health_summary exampleBackends 2).status = "healthy" ↔
      2 ≤ (get_health_summary exampleBackends 2).healthy_backends) ∧
    ((get_health_summary exampleBackends 2).status = "degraded" ↔
      (get_health_summary exampleBackends 2).healthy_backends < 2)) :=
  ⟨by decide, (health_summary_thresholds exampleBackends 2).2.1 (by decide)⟩

/-- Helper: `upsertBackend` preserves a property that the inserted record
and all map entries satisfy. -/
theorem upsertBackend_forall {P : BackendHealth → Prop} :
    ∀ (m : List BackendHealth) (b : BackendHealth),
      (∀ x ∈ m, P x) → P b → ∀ x ∈ upsertBackend m b, P x := by
  intro m
  induction m with
  | nil =>
    intro b _ hb x hx
    simp [upsertBackend] at hx
    exact hx ▸ hb
  | cons y rest ih =>
    intro b hm hb x hx
    simp only [upsertBackend] at hx
    by_cases hy : y.name = b.name
    · rw [if_pos hy] at hx
      rcases List.mem_cons.mp hx with h | h
      · exact h ▸ hb
      · exact hm x (List.mem_cons_of_mem y h)
    · rw [if_neg hy] at hx
      rcases List.mem_cons.mp hx with h | h
      · exact h ▸ hm y (List.mem_cons_self y rest)
      · exact ih b (fun z hz => hm z (List.mem_cons_of_mem y hz)) hb x h

/-- Helper: every record in a map built by `register_backends` satisfies a
property that holds for fresh records and for the entries already there. -/
theorem register_backends_forall {P : BackendHealth → Prop}
    (hmk : ∀ s : BackendSpec, P (mkBackendHealth s.name s.host s.http_port s.socks_port)) :
    ∀ (specs : List BackendSpec) (m : List BackendHealth),
      (∀ x ∈ m, P x) → ∀ x ∈ register_backends m specs, P x := by
  intro specs
  induction specs with
  | nil => intro m hm x hx; exact hm x hx
  | cons s rest ih =>
    intro m hm x hx
    exact ih _ (upsertBackend_forall m _ hm (hmk s)) x hx

/-- Helper: inserting into a backend map never empties it. -/
theorem upsertBackend_ne_nil (m : List BackendHealth) (b : BackendHealth) :
    upsertBackend m b ≠ [] := by
  cases m with
  | nil => simp [upsertBackend]
  | cons y rest =>
    simp only [upsertBackend]
    split <;> simp

/-- Helper: registering at least one backend leaves a non-empty map. -/
theorem register_backends_ne_nil :
    ∀ (specs : List BackendSpec) (m : List BackendHealth),
      m ≠ [] ∨ specs ≠ [] → register_backends m specs ≠ [] := by
  intro specs
  induction specs with
  | nil =>
    intro m hm
    rcases hm with h | h
    · exact h
    · exact absurd rfl h
  | cons s rest ih =>
    intro m _
    exact ih _ (Or.inl (upsertBackend_ne_nil m _))

/-- Helper: a map of backends none of which is healthy has healthy count 0. -/
theorem filter_healthy_nil (m : List BackendHealth)
    (h : ∀ x ∈ m, x.is_healthy = false) :
    (m.filter (fun b => b.is_healthy)).length = 0 := by
  rw [List.length_eq_zero, List.filter_eq_nil_iff]
  intro a ha
  simp [h a ha]

/-- C10: immediately after `register_backends` on a fresh checker and
before any check has run, every registered backend has both liveness flags
false and a zero failure counter, so for any non-empty registration the
summary reports 0 healthy backends and overall status the string down,
whatever the threshold (and hence whatever the actual processes are
doing — no probe is involved). -/
theorem fresh_registration_down (specs : List BackendSpec) (min_healthy : Nat)
    (hne : specs ≠ []) :
    (∀ b ∈ register_backends [] specs,
      b.http_alive = false ∧ b.socks_alive = false ∧ b.consecutive_failures = 0) ∧
    register_backends [] specs ≠ [] ∧
    (get_health_summary (register_backends [] specs) min_healthy).healthy_backends = 0 ∧
    (get_health_summary (register_backends [] specs) min_healthy).status = "down" := by
  have hall : ∀ b ∈ register_backends [] specs,
      b.http_alive = false ∧ b.socks_alive = false ∧ b.consecutive_failures = 0 :=
    register_backends_forall (fun s => by simp [mkBackendHealth]) specs [] (by simp)
  have hunh : ∀ b ∈ register_backends [] specs, b.is_healthy = false := by
    intro b hb
    have := hall b hb
    simp [BackendHealth.is_healthy, this.1]
  have hzero := filter_healthy_nil _ hunh
  refine ⟨hall, register_backends_ne_nil specs [] (Or.inr hne), ?_, ?_⟩
  · simp [get_health_summary, hzero]
  · simp [get_health_summary, hzero]

/-- C10 witness: one freshly registered backend, threshold 2. -/
theorem fresh_registration_down_witness :
    (∀ b ∈ register_backends [] [⟨"3proxy_0", "127.0.0.1", 13128, 11080⟩],
      b.http_alive = false ∧ b.socks_alive = false ∧ b.consecutive_failures = 0) ∧
    register_backends [] [⟨"3proxy_0", "127.0.0.1", 13128, 11080⟩] ≠ [] ∧
    (get_health_summary (register_backends [] [⟨"3proxy_0", "127.0.0.1", 13128, 11080⟩])
        2).healthy_backends = 0 ∧
    (get_health_summary (register_backends [] [⟨"3proxy_0", "127.0.0.1", 13128, 11080⟩])
        2).status = "down" :=
  fresh_registration_down [⟨"3proxy_0", "127.0.0.1", 13128, 11080⟩] 2 (by simp)

end HealthChecker

/-! ## C7, C6 — process stop and escalation -/

/-- Helper: the 100 ms polling loop never sees the process dead when every
probe in its range reports it alive. -/
theorem pollLoop_all_alive (w : ProcWorld) :
    ∀ n k, (∀ i, k ≤ i → i < k + n → w.alive i = true) → pollLoop w n k = false := by
  intro n
  induction n with
  | zero => intro k _; rfl
  | succ n ih =>
    intro k h
    have hk : w.alive k = true := h k (Nat.le_refl k) (by omega)
    simp only [pollLoop, hk, Bool.not_true, Bool.false_eq_true, if_false]
    exact ih (k + 1) (fun i h1 h2 => h i (by omega) (by omega))

/-- C6: a live process (first probe alive, SIGTERM deliverable) that is
still alive on every 100 ms poll of the grace period receives the forceful
kill signal after the graceful one before `stop_process_by_pid` returns,
and the returned value is exactly the result of the confirmation probe
taken after the kill. -/
theorem escalation_sends_kill (w : ProcWorld) (timeout : Nat)
    (halive : w.alive 0 = true) (hterm : w.termRaises = false)
    (hstay : ∀ i, 1 ≤ i → i ≤ timeout * 10 → w.alive i = true) :
    stop_process_by_pid w timeout = (!(w.alive (timeout * 10 + 1)), [Sig.term, Sig.kill]) := by
  have hpoll : pollLoop w (timeout * 10) 1 = false :=
    pollLoop_all_alive w (timeout * 10) 1 (fun i h1 h2 => hstay i h1 (by omega))
  simp [stop_process_by_pid, halive, hterm, hpoll]

/-- C6 witness: a process that never dies, with the default grace period of
the 3proxy manager scaled to 1 second: SIGTERM then SIGKILL are sent and
the final probe (still alive) makes the call report failure. -/
theorem escalation_sends_kill_witness :
    stop_process_by_pid ⟨fun _ => true, false⟩ 1 =
      (!((⟨fun _ => true, false⟩ : ProcWorld).alive (1 * 10 + 1)), [Sig.term, Sig.kill]) :=
  escalation_sends_kill ⟨fun _ => true, false⟩ 1 rfl rfl (fun _ _ _ => rfl)

/-- C7: stopping an instance with no recorded PID, or whose recorded PID is
not alive, returns success immediately with no signal sent; likewise
`stop_process_by_pid` itself on a dead PID. -/
theorem stop_idempotent (pidFile : Option Nat) (w : ProcWorld) (timeout : Nat)
    (h : pidFile = none ∨ w.alive 0 = false) :
    stop_instance pidFile w timeout = (true, []) ∧
    (w.alive 0 = false → stop_process_by_pid w timeout = (true, [])) := by
  have hstop : w.alive 0 = false → stop_process_by_pid w timeout = (true, []) := by
    intro hdead
    simp [stop_process_by_pid, hdead]
  refine ⟨?_, hstop⟩
  rcases h with h | h
  · rw [h]; rfl
  · cases pidFile with
    | none => rfl
    | some pid =>
      by_cases hp : pid = 0
      · simp [stop_instance, hp]
      · simp [stop_instance, hp, hstop h]

/-- C7 witness: both cases concretely — no PID file at all (with a live
process behind it, showing nothing is consulted), and PID 42 recorded but
dead on the first probe. -/
theorem stop_idempotent_witness :
    (stop_instance none ⟨fun _ => true, false⟩ 10 = (true, []) ∧
      ((⟨fun _ => true, false⟩ : ProcWorld).alive 0 = false →
        stop_process_by_pid ⟨fun _ => true, false⟩ 10 = (true, []))) ∧
    (stop_instance (some 42) ⟨fun _ => false, false⟩ 10 = (true, []) ∧
      ((⟨fun _ => false, false⟩ : ProcWorld).alive 0 = false →
        stop_process_by_pid ⟨fun _ => false, false⟩ 10 = (true, []))) :=
  ⟨stop_idempotent none ⟨fun _ => true, false⟩ 10 (Or.inl rfl),
   stop_idempotent (some 42) ⟨fun _ => false, false⟩ 10 (Or.inr rfl)⟩

/-! ## C5 — orchestrator rollback -/

namespace ProxyStackOrchestrator

/-- C5: when `start()` passes validation and then hits a fatal step — zero
workers coming up, or the load balancer failing to start after at least
one worker did — it returns the failure code 1, its event trace ends with
the full `stop()` sequence (health checker, rotation engine, load
balancer, all workers, PID-file removal; monitoring was not yet created at
these points), and the final stack state has every component stopped. -/
theorem start_fatal_rollback (env : StartEnv)
    (hrun : env.alreadyRunning = false) (hval : env.validateOk = true)
    (hfatal : env.workersStarted = 0 ∨ env.lbOk = false) :
    (start env).1 = 1 ∧
    (∃ evs, (start env).2.1 = evs ++ stopEvents false) ∧
    allStopped (start env).2.2 := by
  by_cases hw : env.workersStarted = 0
  · have heq : start env =
        (1, [StackEvent.genConfigs, StackEvent.validateCfg,
             StackEvent.startWorkers env.workersStarted] ++ stopEvents false, stoppedState) := by
      simp [start, hrun, hval, hw]
    rw [heq]
    exact ⟨rfl, ⟨_, rfl⟩, by simp [allStopped, stoppedState]⟩
  · have hlb : env.lbOk = false := hfatal.resolve_left hw
    have heq : start env =
        (1, [StackEvent.genConfigs, StackEvent.validateCfg,
             StackEvent.startWorkers env.workersStarted, StackEvent.startLB] ++
              stopEvents false, stoppedState) := by
      simp [start, hrun, hval, hw, hlb]
    rw [heq]
    exact ⟨rfl, ⟨_, rfl⟩, by simp [allStopped, stoppedState]⟩

/-- C5 witness: a 3-instance configuration in which no worker starts. -/
theorem start_fatal_rollback_witness :
    ((start ⟨false, true, 3, 0, true, true, true⟩).1 = 1 ∧
      (∃ evs, (start ⟨false, true, 3, 0, true, true, true⟩).2.1 = evs ++ stopEvents false) ∧
      allStopped (start ⟨false, true, 3, 0, true, true, true⟩).2.2) :=
  start_fatal_rollback ⟨false, true, 3, 0, true, true, true⟩ rfl rfl (Or.inl rfl)

end ProxyStackOrchestrator
